import Mathlib

/-!
# Snapshot service of kubemq-community (`services/api/service.go`)

A shallow embedding of the `service` type of `services/api/service.go` and of its
methods `init`, `saveEntitiesGroup`, `getCurrentSnapshot` and `getSnapshot`.

* Go pointers to records are modelled by values; a pointer that the code tests
  against `nil` (`lastSnapshot`) is an `Option`.
* A Go `error` is modelled by its message (`err.Error()`).
* The external collaborators (`metrics.Exporter`, `broker.Service`, `api.DB`,
  the logger) are modelled by the answers they give during one call, passed as
  arguments, and by the list of `Event`s the call performs on them, in order.
* The mutex of `service` is not modelled: every method runs to completion
  without interleaving.
-/

namespace KubeMQ

/-- A Go `error` value, identified with the text of `err.Error()`. -/
abbrev Error := String

/-! ## Package `pkg/api` (data model) -/

/-- Modelled from the spec: the counters of one direction of an entity
(`pkg/api` is outside `services/api/service.go`). The spec names the waiting
count (queue depth) "alongside other traffic counters". -/
structure BaseValues where
  Messages : Int
  Volume : Int
  Waiting : Int
deriving DecidableEq, Repr

/-- Modelled from the spec: `api.Entity`, the per-resource counters. The service
only touches `Out.Waiting`. -/
structure Entity where
  In : BaseValues
  Out : BaseValues
deriving DecidableEq, Repr

/-- One category of entities: entity name to entity. -/
abbrev EntitiesFamily := List (String × Entity)

/-- Modelled from the spec: `api.EntitiesGroup`, a "mapping from category name
to mapping from entity name to Entity record", as association lists. -/
structure EntitiesGroup where
  Families : List (String × EntitiesFamily)
deriving DecidableEq, Repr

/-- Modelled from the spec: `api.NewEntitiesGroup()`, the empty group. -/
def NewEntitiesGroup : EntitiesGroup := ⟨[]⟩

/-- Lookup of an entity name inside one category. -/
def EntitiesFamily.get : EntitiesFamily → String → Option Entity
  | [], _ => none
  | (n, en) :: rest, name => if n = name then some en else EntitiesFamily.get rest name

/-- Lookup of a category. -/
def EntitiesGroup.getFamily : List (String × EntitiesFamily) → String → Option EntitiesFamily
  | [], _ => none
  | (c, fam) :: rest, family => if c = family then some fam else EntitiesGroup.getFamily rest family

/-- Modelled from the spec: `EntitiesGroup.GetEntity(family, name)`, returning the
entity stored under the category and name, and whether there is one. -/
def EntitiesGroup.GetEntity (e : EntitiesGroup) (family name : String) : Option Entity :=
  match EntitiesGroup.getFamily e.Families family with
  | some fam => EntitiesFamily.get fam name
  | none => none

/-- In-place update of the entities called `name` inside one category. -/
def EntitiesFamily.modify (f : Entity → Entity) : EntitiesFamily → String → EntitiesFamily
  | [], _ => []
  | (n, en) :: rest, name =>
    (n, if n = name then f en else en) :: EntitiesFamily.modify f rest name

/-- The effect on the group of writing through the pointer that
`GetEntity(family, name)` returned: the entity stored there is replaced by its
image under `f`; nothing is inserted or removed. -/
def EntitiesGroup.modifyEntity (e : EntitiesGroup) (family name : String)
    (f : Entity → Entity) : EntitiesGroup :=
  ⟨e.Families.map fun p => (p.1, if p.1 = family then EntitiesFamily.modify f p.2 name else p.2)⟩

/-- The (category, entity name) keys of a group, in storage order. -/
def EntitiesGroup.keys (e : EntitiesGroup) : List (String × String) :=
  e.Families.flatMap fun p => p.2.map fun q => (p.1, q.1)

/-- Modelled from the spec: `EntitiesGroup.Clone()`, a "deep copy, no shared
mutable state with original": every level of the group is rebuilt. -/
def EntitiesGroup.Clone (e : EntitiesGroup) : EntitiesGroup :=
  ⟨e.Families.map fun p => (p.1, p.2.map fun q =>
    (q.1, { In := { Messages := q.2.In.Messages, Volume := q.2.In.Volume, Waiting := q.2.In.Waiting },
            Out := { Messages := q.2.Out.Messages, Volume := q.2.Out.Volume, Waiting := q.2.Out.Waiting } }))⟩

/-- Insert-or-replace of one entity inside a category. -/
def EntitiesFamily.upsert : EntitiesFamily → String → Entity → EntitiesFamily
  | [], name, v => [(name, v)]
  | (n, en) :: rest, name, v =>
    if n = name then (n, v) :: rest else (n, en) :: EntitiesFamily.upsert rest name v

/-- Insert-or-replace of one entity inside a group. -/
def EntitiesGroup.upsert : List (String × EntitiesFamily) → String → String → Entity →
    List (String × EntitiesFamily)
  | [], family, name, v => [(family, [(name, v)])]
  | (c, fam) :: rest, family, name, v =>
    if c = family then (c, EntitiesFamily.upsert fam name v) :: rest
    else (c, fam) :: EntitiesGroup.upsert rest family name v

/-- Modelled from the spec: `EntitiesGroup.Merge(other)`, "right-biased: values
present in `other` override/extend the clone; absent categories/entities are
carried over unchanged". -/
def EntitiesGroup.Merge (e other : EntitiesGroup) : EntitiesGroup :=
  ⟨other.Families.foldl
    (fun acc p => p.2.foldl (fun acc q => EntitiesGroup.upsert acc p.1 q.1 q.2) acc) e.Families⟩

/-- Modelled from the spec: `api.System`, the "cumulative process-level counters,
uptime, total CPU-seconds consumed, plus a derived CPU-utilization value". -/
structure System where
  Uptime : ℚ
  TotalCPUSeconds : ℚ
  CPUUtilization : ℚ
deriving DecidableEq, Repr

/-- Modelled from the spec: `System.SetCPUUtilization(lastUptime, lastCPUSeconds)`
(`pkg/api`, outside `services/api/service.go`). The spec asks for utilization zero
when there is no previous snapshot, which the caller encodes as the arguments
`(0, 0)`, and otherwise for the "rate of CPU time per wall-clock time since the
prior computation", a function of the two deltas. -/
def System.SetCPUUtilization (s : System) (lastUptime lastCPUSeconds : ℚ) : System :=
  if lastUptime = 0 ∧ lastCPUSeconds = 0 then { s with CPUUtilization := 0 }
  else { s with CPUUtilization := (s.TotalCPUSeconds - lastCPUSeconds) / (s.Uptime - lastUptime) }

/-- The aggregate `api.Snapshot`: system stats and the entities group. -/
structure Snapshot where
  System : System
  Entities : EntitiesGroup
deriving DecidableEq, Repr

/-- Modelled from the spec: the value built by `api.NewGroupDTO(system, entities)`,
"a serialized view of {System stats, EntitiesGroup}", kept as the pair of its
two arguments. -/
structure GroupDTO where
  System : System
  Entities : EntitiesGroup
deriving DecidableEq, Repr

/-- Modelled from the spec: `api.NewGroupDTO`. -/
def NewGroupDTO (system : System) (entities : EntitiesGroup) : GroupDTO :=
  ⟨system, entities⟩

/-! ## Collaborators -/

/-- One element of `q.Queues`, as returned by `broker.GetQueues`. -/
structure Queue where
  Name : String
  Waiting : Int
deriving DecidableEq, Repr

/-- A call made on an external collaborator. -/
inductive Event where
  | metricsSnapshot
  | brokerGetQueues
  | dbInit
  | dbGetLastEntities
  | dbSaveEntitiesGroup (eg : EntitiesGroup)
  | dbSaveLastEntitiesGroup (eg : EntitiesGroup)
  | loggerErrorf (msg : String)
  | goRun
deriving DecidableEq, Repr

/-- Modelled from the spec: what `getSnapshot` sends back through the `Response`
helper of the package (`NewResponse(c)`, `SetError(err).Send()`,
`SetResponseBody(dto).Send()`): an error response or a body. `nilDereference`
is the Go runtime panic of reading `s.lastSnapshot.System` through a nil
`lastSnapshot`. -/
inductive Response where
  | error (err : Error)
  | body (dto : GroupDTO)
  | nilDereference
deriving DecidableEq, Repr

/-! ## The service -/

/-- The mutable fields of `service`. `lastSnapshot` is `nil` until the first
successful `getCurrentSnapshot`; `lastLoadedEntitiesGroup` is the baseline. -/
structure service where
  lastSnapshot : Option Snapshot
  lastLoadedEntitiesGroup : EntitiesGroup
deriving DecidableEq, Repr

/-- What a method call leaves behind: its return value, the service state after
the call and the calls it made on the collaborators. -/
structure Outcome (α : Type) where
  ret : α
  state : service
  events : List Event

/-- `service.init`: `dbInit` is the result of `s.db.Init(...)` (`none` for a nil
error) and `getLast` the result of `s.db.GetLastEntities()`. -/
def service.init (s : service) (dbInit : Option Error)
    (getLast : Except Error EntitiesGroup) : Outcome (Option Error) :=
  match dbInit with
  | some err => ⟨some ("error initializing api db: " ++ err), s, [.dbInit]⟩
  | none =>
    match getLast with
    | .error err =>
      ⟨none, { s with lastLoadedEntitiesGroup := NewEntitiesGroup },
        [.dbInit, .dbGetLastEntities,
          .loggerErrorf ("error getting last entities data from local db: " ++ err), .goRun]⟩
    | .ok eg =>
      ⟨none, { s with lastLoadedEntitiesGroup := eg }, [.dbInit, .dbGetLastEntities, .goRun]⟩

/-- The assignment `en.Out.Waiting = waiting` on one entity. -/
def withWaiting (waiting : Int) (en : Entity) : Entity :=
  { en with Out := { en.Out with Waiting := waiting } }

/-- The body of the loop over `q.Queues` in `getCurrentSnapshot`: when the
group has an entity for the queue in category "queues", its `Out.Waiting` is
overwritten through the pointer `en`. -/
def setWaiting (eg : EntitiesGroup) (queue : Queue) : EntitiesGroup :=
  match eg.GetEntity "queues" queue.Name with
  | some _ => eg.modifyEntity "queues" queue.Name (withWaiting queue.Waiting)
  | none => eg

/-- `service.getCurrentSnapshot`: `metrics` is the result of
`s.metricsExporter.Snapshot()` and `queues` the result of
`s.broker.GetQueues(ctx)` (its field `Queues`). The broker is only queried
when the metrics source succeeded. -/
def service.getCurrentSnapshot (s : service) (metrics : Except Error Snapshot)
    (queues : Except Error (List Queue)) : Outcome (Except Error Snapshot) :=
  match metrics with
  | .error err => ⟨.error err, s, [.metricsSnapshot]⟩
  | .ok ss =>
    let entities := s.lastLoadedEntitiesGroup.Clone.Merge ss.Entities
    match queues with
    | .error err => ⟨.error err, s, [.metricsSnapshot, .brokerGetQueues]⟩
    | .ok q =>
      let entities := q.foldl setWaiting entities
      let system :=
        match s.lastSnapshot with
        | none => ss.System.SetCPUUtilization 0 0
        | some last => ss.System.SetCPUUtilization last.System.Uptime last.System.TotalCPUSeconds
      let ss : Snapshot := { System := system, Entities := entities }
      ⟨.ok ss, { s with lastSnapshot := some ss }, [.metricsSnapshot, .brokerGetQueues]⟩

/-- `service.saveEntitiesGroup`, one tick of the periodic persister: `save` and
`saveLast` are the results of `s.db.SaveEntitiesGroup` and
`s.db.SaveLastEntitiesGroup` (`none` for a nil error). The function returns
nothing. -/
def service.saveEntitiesGroup (s : service) (metrics : Except Error Snapshot)
    (queues : Except Error (List Queue)) (save saveLast : Option Error) : Outcome Unit :=
  let r := s.getCurrentSnapshot metrics queues
  match r.ret with
  | .error err => ⟨(), r.state, r.events ++ [.loggerErrorf ("error getting snapshot: " ++ err)]⟩
  | .ok currentSnapshot =>
    match save with
    | some err =>
      ⟨(), r.state, r.events ++ [.dbSaveEntitiesGroup currentSnapshot.Entities,
        .loggerErrorf ("error saving entities group: " ++ err)]⟩
    | none =>
      match saveLast with
      | some err =>
        ⟨(), r.state, r.events ++ [.dbSaveEntitiesGroup currentSnapshot.Entities,
          .dbSaveLastEntitiesGroup currentSnapshot.Entities,
          .loggerErrorf ("error saving last entities group: " ++ err)]⟩
      | none =>
        ⟨(), r.state, r.events ++ [.dbSaveEntitiesGroup currentSnapshot.Entities,
          .dbSaveLastEntitiesGroup currentSnapshot.Entities]⟩

/-- The tail of `service.getSnapshot`: the body is built from the fields of
`s.lastSnapshot`, read from the service. -/
def service.sendLastSnapshot (s : service) : Response :=
  match s.lastSnapshot with
  | some last => .body (NewGroupDTO last.System last.Entities)
  | none => .nilDereference

/-- `service.getSnapshot`: when nothing is cached, `getCurrentSnapshot` is
called (with the answers `metrics` and `queues` of the collaborators) and its
returned snapshot is dropped; the response is built from `s.lastSnapshot`. -/
def service.getSnapshot (s : service) (metrics : Except Error Snapshot)
    (queues : Except Error (List Queue)) : Outcome Response :=
  match s.lastSnapshot with
  | none =>
    let r := s.getCurrentSnapshot metrics queues
    match r.ret with
    | .error err => ⟨.error err, r.state, r.events⟩
    | .ok _ => ⟨r.state.sendLastSnapshot, r.state, r.events⟩
  | some _ => ⟨s.sendLastSnapshot, s, []⟩

/-- The answers of the metrics source and of the broker during one call of
`getCurrentSnapshot`. -/
structure Answers where
  metrics : Except Error Snapshot
  queues : Except Error (List Queue)

/-- A sequence of `getCurrentSnapshot` calls, one per element of `calls`: the
state after the last call and the return values, oldest first. -/
def runCalls : service → List Answers → service × List (Except Error Snapshot)
  | s, [] => (s, [])
  | s, a :: rest =>
    let r := s.getCurrentSnapshot a.metrics a.queues
    let t := runCalls r.state rest
    (t.1, r.ret :: t.2)

/-- The snapshot returned by the most recent successful call of a sequence of
return values (oldest first), or `cached` when none succeeded. -/
def lastReturned : Option Snapshot → List (Except Error Snapshot) → Option Snapshot
  | cached, [] => cached
  | _, .ok ss :: rest => lastReturned (some ss) rest
  | cached, .error _ :: rest => lastReturned cached rest

/-! ## The scenario of the spec -/

/-- Baseline of the scenario: category "queues" holds `q1` with waiting 0. -/
def scenarioBaseline : EntitiesGroup :=
  ⟨[("queues", [("q1", ⟨⟨0, 0, 0⟩, ⟨0, 0, 0⟩⟩)])]⟩

/-- The entity `channels.c1` of the live metrics of the scenario. -/
def scenarioC1 : Entity := ⟨⟨3, 30, 0⟩, ⟨2, 20, 0⟩⟩

/-- Live metrics of the scenario: `queues.q1` with waiting 0 and `channels.c1`. -/
def scenarioLive : Snapshot :=
  { System := ⟨10, 5, 0⟩,
    Entities := ⟨[("queues", [("q1", ⟨⟨4, 40, 0⟩, ⟨1, 10, 0⟩⟩)]), ("channels", [("c1", scenarioC1)])]⟩ }

/-- Broker answer of the scenario: `q1` has 7 waiting messages. -/
def scenarioQueues : List Queue := [⟨"q1", 7⟩]

/-- A broker answer naming a queue, `ghost`, that no entity matches. -/
def ghostQueues : List Queue := [⟨"q1", 7⟩, ⟨"ghost", 3⟩]

/-- A service right after a successful start, nothing cached yet. -/
def coldService : service := ⟨none, scenarioBaseline⟩

/-- A service holding a cached snapshot. -/
def warmService : service :=
  ⟨some { System := ⟨4, 2, 0⟩, Entities := scenarioBaseline }, scenarioBaseline⟩

/-- The entities of the scenario after the queue depth of `q1` was injected. -/
def scenarioResult : EntitiesGroup :=
  ⟨[("queues", [("q1", ⟨⟨4, 40, 0⟩, ⟨1, 10, 7⟩⟩)]), ("channels", [("c1", scenarioC1)])]⟩

/-- Live metrics taken later than `scenarioLive`, with the same entities. -/
def scenarioLiveLater : Snapshot :=
  { System := ⟨20, 8, 0⟩, Entities := scenarioLive.Entities }

/-- Three calls: both queries succeed, then the broker fails, then the metrics
source fails. -/
def scenarioCalls : List Answers :=
  [⟨.ok scenarioLive, .ok scenarioQueues⟩, ⟨.ok scenarioLiveLater, .error "broker down"⟩,
    ⟨.error "metrics down", .ok scenarioQueues⟩]

/-! ## Lemmas on the data model -/

theorem EntitiesGroup.Clone_eq (e : EntitiesGroup) : e.Clone = e := by
  cases e with
  | mk fams =>
    simp only [EntitiesGroup.Clone]
    congr 1
    conv_rhs => rw [← List.map_id fams]
    apply List.map_congr_left
    intro p _
    cases p with
    | mk c fam =>
      simp only [id, Prod.mk.injEq, true_and]
      conv_rhs => rw [← List.map_id fam]
      apply List.map_congr_left
      intro q _
      rfl

theorem EntitiesFamily.map_fst_modify (f : Entity → Entity) (fam : EntitiesFamily) (name : String)
    (g : String → String × String) :
    (EntitiesFamily.modify f fam name).map (fun q => g q.1) = fam.map (fun q => g q.1) := by
  induction fam with
  | nil => rfl
  | cons hd tl ih =>
    cases hd with
    | mk n en => simp [EntitiesFamily.modify, ih]

theorem EntitiesFamily.get_modify_same (f : Entity → Entity) (fam : EntitiesFamily) (name : String) :
    EntitiesFamily.get (EntitiesFamily.modify f fam name) name
      = (EntitiesFamily.get fam name).map f := by
  induction fam with
  | nil => rfl
  | cons hd tl ih =>
    cases hd with
    | mk n en =>
      by_cases h : n = name
      · simp [EntitiesFamily.modify, EntitiesFamily.get, h]
      · simp [EntitiesFamily.modify, EntitiesFamily.get, h, ih]

theorem EntitiesFamily.get_modify_other (f : Entity → Entity) (fam : EntitiesFamily)
    (name other : String) (hne : other ≠ name) :
    EntitiesFamily.get (EntitiesFamily.modify f fam name) other = EntitiesFamily.get fam other := by
  induction fam with
  | nil => rfl
  | cons hd tl ih =>
    cases hd with
    | mk n en =>
      by_cases h : n = other
      · have h2 : ¬ n = name := fun h3 => hne (h.symm.trans h3)
        simp [EntitiesFamily.modify, EntitiesFamily.get, h, h2]
        intro h4
        exact absurd h4 (h ▸ h2)
      · simp [EntitiesFamily.modify, EntitiesFamily.get, h, ih]

theorem EntitiesGroup.keys_modifyEntity (e : EntitiesGroup) (family name : String)
    (f : Entity → Entity) : (e.modifyEntity family name f).keys = e.keys := by
  cases e with
  | mk fams =>
    simp only [EntitiesGroup.modifyEntity, EntitiesGroup.keys]
    induction fams with
    | nil => rfl
    | cons hd tl ih =>
      simp only [List.map_cons, List.flatMap_cons, ih]
      congr 1
      by_cases h : hd.1 = family
      · simp only [h, if_true]
        exact EntitiesFamily.map_fst_modify f hd.2 name (fun n => (family, n))
      · simp only [h, if_false]

theorem EntitiesGroup.getFamily_map_modify (f : Entity → Entity)
    (fams : List (String × EntitiesFamily)) (family name other : String) :
    EntitiesGroup.getFamily
        (fams.map fun p => (p.1, if p.1 = family then EntitiesFamily.modify f p.2 name else p.2)) other
      = (EntitiesGroup.getFamily fams other).map
          (fun fam => if other = family then EntitiesFamily.modify f fam name else fam) := by
  induction fams with
  | nil => rfl
  | cons hd tl ih =>
    cases hd with
    | mk c fam =>
      by_cases h : c = other
      · simp [EntitiesGroup.getFamily, h]
      · simp [EntitiesGroup.getFamily, h, ih]

theorem EntitiesGroup.GetEntity_modifyEntity_same (e : EntitiesGroup) (family name : String)
    (f : Entity → Entity) :
    (e.modifyEntity family name f).GetEntity family name = (e.GetEntity family name).map f := by
  simp only [EntitiesGroup.GetEntity, EntitiesGroup.modifyEntity,
    EntitiesGroup.getFamily_map_modify]
  cases EntitiesGroup.getFamily e.Families family with
  | none => rfl
  | some fam => simp [EntitiesFamily.get_modify_same]

theorem EntitiesGroup.GetEntity_modifyEntity_other (e : EntitiesGroup)
    (family name family2 name2 : String) (f : Entity → Entity)
    (hne : family2 ≠ family ∨ name2 ≠ name) :
    (e.modifyEntity family name f).GetEntity family2 name2 = e.GetEntity family2 name2 := by
  simp only [EntitiesGroup.GetEntity, EntitiesGroup.modifyEntity,
    EntitiesGroup.getFamily_map_modify]
  cases EntitiesGroup.getFamily e.Families family2 with
  | none => rfl
  | some fam =>
    by_cases h : family2 = family
    · have h2 : name2 ≠ name := by
        rcases hne with h3 | h3
        · exact absurd h h3
        · exact h3
      simp [h, EntitiesFamily.get_modify_other f fam name name2 h2]
    · simp [h]

theorem keys_setWaiting (eg : EntitiesGroup) (queue : Queue) :
    (setWaiting eg queue).keys = eg.keys := by
  unfold setWaiting
  cases eg.GetEntity "queues" queue.Name with
  | none => rfl
  | some en => exact EntitiesGroup.keys_modifyEntity _ _ _ _

theorem GetEntity_setWaiting_same (eg : EntitiesGroup) (queue : Queue) :
    (setWaiting eg queue).GetEntity "queues" queue.Name
      = (eg.GetEntity "queues" queue.Name).map (withWaiting queue.Waiting) := by
  unfold setWaiting
  cases h : eg.GetEntity "queues" queue.Name with
  | none => simp [h]
  | some en =>
    simp only [EntitiesGroup.GetEntity_modifyEntity_same, h]

theorem GetEntity_setWaiting_other (eg : EntitiesGroup) (queue : Queue) (family name : String)
    (hne : family ≠ "queues" ∨ name ≠ queue.Name) :
    (setWaiting eg queue).GetEntity family name = eg.GetEntity family name := by
  unfold setWaiting
  cases eg.GetEntity "queues" queue.Name with
  | none => rfl
  | some en => exact EntitiesGroup.GetEntity_modifyEntity_other _ _ _ _ _ _ hne

theorem keys_foldl_setWaiting (q : List Queue) (eg : EntitiesGroup) :
    (q.foldl setWaiting eg).keys = eg.keys := by
  induction q generalizing eg with
  | nil => rfl
  | cons hd tl ih => simp only [List.foldl_cons, ih, keys_setWaiting]

theorem GetEntity_foldl_setWaiting_other (q : List Queue) (eg : EntitiesGroup)
    (family name : String) (hne : family ≠ "queues" ∨ name ∉ q.map Queue.Name) :
    (q.foldl setWaiting eg).GetEntity family name = eg.GetEntity family name := by
  induction q generalizing eg with
  | nil => rfl
  | cons hd tl ih =>
    simp only [List.foldl_cons]
    have h1 : family ≠ "queues" ∨ name ∉ tl.map Queue.Name := by
      rcases hne with h | h
      · exact Or.inl h
      · exact Or.inr fun hm => h (by simp only [List.map_cons]; exact List.mem_cons_of_mem _ hm)
    have h2 : family ≠ "queues" ∨ name ≠ hd.Name := by
      rcases hne with h | h
      · exact Or.inl h
      · exact Or.inr fun he => h (by simp [he])
    rw [ih _ h1, GetEntity_setWaiting_other _ _ _ _ h2]

theorem GetEntity_foldl_setWaiting_mem (q : List Queue) (eg : EntitiesGroup) (queue : Queue)
    (hmem : queue ∈ q) (hnodup : (q.map Queue.Name).Nodup) :
    (q.foldl setWaiting eg).GetEntity "queues" queue.Name
      = (eg.GetEntity "queues" queue.Name).map (withWaiting queue.Waiting) := by
  induction q generalizing eg with
  | nil => cases hmem
  | cons hd tl ih =>
    simp only [List.map_cons, List.nodup_cons] at hnodup
    simp only [List.foldl_cons]
    rcases List.mem_cons.mp hmem with h | h
    · subst h
      rw [GetEntity_foldl_setWaiting_other tl _ _ _ (Or.inr hnodup.1), GetEntity_setWaiting_same]
    · have hne : queue.Name ≠ hd.Name := by
        intro he
        exact hnodup.1 (he ▸ List.mem_map_of_mem Queue.Name h)
      rw [ih _ h hnodup.2, GetEntity_setWaiting_other _ _ _ _ (Or.inr hne)]

theorem isSome_GetEntity_setWaiting (eg : EntitiesGroup) (queue : Queue) (family name : String) :
    ((setWaiting eg queue).GetEntity family name).isSome = (eg.GetEntity family name).isSome := by
  by_cases h : family = "queues" ∧ name = queue.Name
  · obtain ⟨h1, h2⟩ := h
    subst h1 h2
    rw [GetEntity_setWaiting_same]
    cases eg.GetEntity "queues" queue.Name <;> rfl
  · have hne : family ≠ "queues" ∨ name ≠ queue.Name := by
      by_cases h1 : family = "queues"
      · exact Or.inr fun h2 => h ⟨h1, h2⟩
      · exact Or.inl h1
    rw [GetEntity_setWaiting_other _ _ _ _ hne]

theorem isSome_GetEntity_foldl_setWaiting (q : List Queue) (eg : EntitiesGroup)
    (family name : String) :
    ((q.foldl setWaiting eg).GetEntity family name).isSome = (eg.GetEntity family name).isSome := by
  induction q generalizing eg with
  | nil => rfl
  | cons hd tl ih => simp only [List.foldl_cons, ih, isSome_GetEntity_setWaiting]

/-! ## The service: `getCurrentSnapshot` -/

theorem getCurrentSnapshot_ok (s : service) (ss : Snapshot) (q : List Queue) :
    ∃ r, (s.getCurrentSnapshot (.ok ss) (.ok q)).ret = .ok r
      ∧ r.Entities = q.foldl setWaiting (s.lastLoadedEntitiesGroup.Clone.Merge ss.Entities)
      ∧ r.System = (match s.lastSnapshot with
          | none => ss.System.SetCPUUtilization 0 0
          | some last =>
            ss.System.SetCPUUtilization last.System.Uptime last.System.TotalCPUSeconds)
      ∧ (s.getCurrentSnapshot (.ok ss) (.ok q)).state
          = { lastSnapshot := some r, lastLoadedEntitiesGroup := s.lastLoadedEntitiesGroup }
      ∧ (s.getCurrentSnapshot (.ok ss) (.ok q)).events = [.metricsSnapshot, .brokerGetQueues] :=
  ⟨_, rfl, rfl, rfl, rfl, rfl⟩

/-- C1: when the metrics source fails, or the metrics source succeeds and the
broker query fails, `getCurrentSnapshot` returns that error and no snapshot, and
the cached `lastSnapshot` and the baseline `lastLoadedEntitiesGroup` are what
they were before the call. -/
theorem getCurrentSnapshot_error_leaves_state (s : service)
    (metrics : Except Error Snapshot) (queues : Except Error (List Queue)) (err : Error)
    (hfail : metrics = .error err ∨ ((∃ ss, metrics = .ok ss) ∧ queues = .error err)) :
    (s.getCurrentSnapshot metrics queues).ret = .error err
      ∧ (s.getCurrentSnapshot metrics queues).state.lastSnapshot = s.lastSnapshot
      ∧ (s.getCurrentSnapshot metrics queues).state.lastLoadedEntitiesGroup
          = s.lastLoadedEntitiesGroup := by
  rcases hfail with h | ⟨⟨ss, h⟩, hq⟩
  · subst h
    exact ⟨rfl, rfl, rfl⟩
  · subst h hq
    exact ⟨rfl, rfl, rfl⟩

/-- Witness of C1: the warm service, live metrics available, broker down. -/
theorem getCurrentSnapshot_error_leaves_state_witness :
    ((Except.ok scenarioLive : Except Error Snapshot) = .error "broker down"
        ∨ ((∃ ss, (Except.ok scenarioLive : Except Error Snapshot) = .ok ss)
            ∧ (Except.error "broker down" : Except Error (List Queue)) = .error "broker down"))
      ∧ (warmService.getCurrentSnapshot (.ok scenarioLive) (.error "broker down")).ret
          = .error "broker down"
      ∧ (warmService.getCurrentSnapshot (.ok scenarioLive) (.error "broker down")).state.lastSnapshot
          = warmService.lastSnapshot
      ∧ (warmService.getCurrentSnapshot (.ok scenarioLive)
            (.error "broker down")).state.lastLoadedEntitiesGroup
          = warmService.lastLoadedEntitiesGroup :=
  ⟨Or.inr ⟨⟨scenarioLive, rfl⟩, rfl⟩,
    getCurrentSnapshot_error_leaves_state warmService (.ok scenarioLive) (.error "broker down")
      "broker down" (Or.inr ⟨⟨scenarioLive, rfl⟩, rfl⟩)⟩

/-- C2: with no cached snapshot, a `getCurrentSnapshot` whose two queries
succeed returns a snapshot of CPU utilization 0, whatever uptime and CPU
seconds the metrics source reported. -/
theorem getCurrentSnapshot_cold_start (s : service) (ss : Snapshot) (q : List Queue)
    (hcold : s.lastSnapshot = none) :
    ∃ r, (s.getCurrentSnapshot (.ok ss) (.ok q)).ret = .ok r ∧ r.System.CPUUtilization = 0 := by
  obtain ⟨r, hr, _, hsys, _, _⟩ := getCurrentSnapshot_ok s ss q
  refine ⟨r, hr, ?_⟩
  rw [hsys, hcold]
  simp [System.SetCPUUtilization]

/-- Witness of C2: the cold service on the scenario (uptime 10, CPU seconds 5). -/
theorem getCurrentSnapshot_cold_start_witness :
    coldService.lastSnapshot = none
      ∧ ∃ r, (coldService.getCurrentSnapshot (.ok scenarioLive) (.ok scenarioQueues)).ret = .ok r
          ∧ r.System.CPUUtilization = 0 :=
  ⟨rfl, getCurrentSnapshot_cold_start coldService scenarioLive scenarioQueues rfl⟩

/-- C3: on a successful `getCurrentSnapshot` with distinct queue names, every
reported queue that has an entity in category "queues" of the working group
`Clone(baseline).Merge(live)` ends with that entity carrying the broker's
waiting value in `Out.Waiting` (and nothing else changed in it), and every
entity not named by a reported queue is as the merge produced it. -/
theorem getCurrentSnapshot_queue_depth (s : service) (ss : Snapshot) (q : List Queue)
    (hnodup : (q.map Queue.Name).Nodup) :
    ∃ r, (s.getCurrentSnapshot (.ok ss) (.ok q)).ret = .ok r
      ∧ (∀ queue ∈ q, ∀ en,
          (s.lastLoadedEntitiesGroup.Clone.Merge ss.Entities).GetEntity "queues" queue.Name = some en →
          ∃ en2, r.Entities.GetEntity "queues" queue.Name = some en2
            ∧ en2.Out.Waiting = queue.Waiting ∧ en2 = withWaiting queue.Waiting en)
      ∧ (∀ family name, (family ≠ "queues" ∨ name ∉ q.map Queue.Name) →
          r.Entities.GetEntity family name
            = (s.lastLoadedEntitiesGroup.Clone.Merge ss.Entities).GetEntity family name) := by
  obtain ⟨r, hr, hent, _, _, _⟩ := getCurrentSnapshot_ok s ss q
  refine ⟨r, hr, ?_, ?_⟩
  · intro queue hmem en hen
    refine ⟨withWaiting queue.Waiting en, ?_, rfl, rfl⟩
    rw [hent, GetEntity_foldl_setWaiting_mem q _ queue hmem hnodup, hen]
    rfl
  · intro family name hne
    rw [hent]
    exact GetEntity_foldl_setWaiting_other q _ family name hne

/-- Witness of C3, the scenario of the spec: baseline `queues.q1` with waiting 0,
live metrics with `queues.q1` and `channels.c1`, broker reporting `q1` with 7
waiting: the result has `queues.q1` with waiting 7 and `channels.c1` unchanged. -/
theorem getCurrentSnapshot_queue_depth_witness :
    (scenarioQueues.map Queue.Name).Nodup
      ∧ ∃ r, (coldService.getCurrentSnapshot (.ok scenarioLive) (.ok scenarioQueues)).ret = .ok r
          ∧ (∃ en2, r.Entities.GetEntity "queues" "q1" = some en2 ∧ en2.Out.Waiting = 7)
          ∧ r.Entities.GetEntity "channels" "c1" = some scenarioC1 := by
  refine ⟨by decide, ?_⟩
  obtain ⟨r, hr, hq, hother⟩ :=
    getCurrentSnapshot_queue_depth coldService scenarioLive scenarioQueues (by decide)
  refine ⟨r, hr, ?_, ?_⟩
  · obtain ⟨en2, h1, h2, _⟩ := hq ⟨"q1", 7⟩ (by decide) ⟨⟨4, 40, 0⟩, ⟨1, 10, 0⟩⟩ (by decide)
    exact ⟨en2, h1, h2⟩
  · rw [hother "channels" "c1" (Or.inl (by decide))]
    decide

/-- C4: when both queries succeed, queues without a matching entity in
category "queues" of the working group raise no error and create no entity:
the call returns a snapshot whose (category, name) keys are those of
`Clone(baseline).Merge(live)`, and a name without an entity before the queue
loop has none after it. -/
theorem getCurrentSnapshot_missing_queue (s : service) (ss : Snapshot) (q : List Queue) :
    ∃ r, (s.getCurrentSnapshot (.ok ss) (.ok q)).ret = .ok r
      ∧ r.Entities.keys = (s.lastLoadedEntitiesGroup.Clone.Merge ss.Entities).keys
      ∧ (∀ queue ∈ q,
          (s.lastLoadedEntitiesGroup.Clone.Merge ss.Entities).GetEntity "queues" queue.Name = none →
          r.Entities.GetEntity "queues" queue.Name = none) := by
  obtain ⟨r, hr, hent, _, _, _⟩ := getCurrentSnapshot_ok s ss q
  refine ⟨r, hr, ?_, ?_⟩
  · rw [hent]
    exact keys_foldl_setWaiting q _
  · intro queue _ hnone
    have h := isSome_GetEntity_foldl_setWaiting q
      (s.lastLoadedEntitiesGroup.Clone.Merge ss.Entities) "queues" queue.Name
    rw [hnone] at h
    rw [hent]
    exact Option.not_isSome_iff_eq_none.mp (by simpa using h)

/-- Witness of C4: the broker also reports `ghost`, which has no entity; the
keys stay `queues.q1` and `channels.c1`. -/
theorem getCurrentSnapshot_missing_queue_witness :
    ∃ r, (coldService.getCurrentSnapshot (.ok scenarioLive) (.ok ghostQueues)).ret = .ok r
      ∧ r.Entities.keys = [("queues", "q1"), ("channels", "c1")]
      ∧ r.Entities.GetEntity "queues" "ghost" = none := by
  obtain ⟨r, hr, hkeys, hnone⟩ :=
    getCurrentSnapshot_missing_queue coldService scenarioLive ghostQueues
  refine ⟨r, hr, ?_, ?_⟩
  · rw [hkeys]
    decide
  · exact hnone ⟨"ghost", 3⟩ (by decide) (by decide)

theorem getCurrentSnapshot_ok_inv (s : service) (metrics : Except Error Snapshot)
    (queues : Except Error (List Queue)) (r : Snapshot)
    (hok : (s.getCurrentSnapshot metrics queues).ret = .ok r) :
    ∃ ss q, metrics = .ok ss ∧ queues = .ok q := by
  cases metrics with
  | error e => cases hok
  | ok ss =>
    cases queues with
    | error e => cases hok
    | ok q => exact ⟨ss, q, rfl, rfl⟩

theorem getCurrentSnapshot_lastSnapshot (s : service) (metrics : Except Error Snapshot)
    (queues : Except Error (List Queue)) :
    (s.getCurrentSnapshot metrics queues).state.lastSnapshot
      = match (s.getCurrentSnapshot metrics queues).ret with
        | .ok r => some r
        | .error _ => s.lastSnapshot := by
  cases metrics with
  | error e => rfl
  | ok ss =>
    cases queues with
    | error e => rfl
    | ok q => rfl

theorem getCurrentSnapshot_baseline (s : service) (metrics : Except Error Snapshot)
    (queues : Except Error (List Queue)) :
    (s.getCurrentSnapshot metrics queues).state.lastLoadedEntitiesGroup
      = s.lastLoadedEntitiesGroup := by
  cases metrics with
  | error e => rfl
  | ok ss =>
    cases queues with
    | error e => rfl
    | ok q => rfl

/-! ## The service: `saveEntitiesGroup` -/

/-- C5 as stated fails: on a tick whose snapshot is computed and whose history
write fails, the last-known slot is never written. -/
theorem saveEntitiesGroup_history_error_skips_last :
    (coldService.getCurrentSnapshot (.ok scenarioLive) (.ok scenarioQueues)).ret
        = .ok { System := ⟨10, 5, 0⟩, Entities := scenarioResult }
      ∧ (coldService.saveEntitiesGroup (.ok scenarioLive) (.ok scenarioQueues)
          (some "disk full") none).events
        = [.metricsSnapshot, .brokerGetQueues, .dbSaveEntitiesGroup scenarioResult,
            .loggerErrorf "error saving entities group: disk full"]
      ∧ Event.dbSaveLastEntitiesGroup scenarioResult ∉
          (coldService.saveEntitiesGroup (.ok scenarioLive) (.ok scenarioQueues)
            (some "disk full") none).events := by
  refine ⟨by rfl, by decide, by decide⟩

/-- C5, amended: on a tick on which `getCurrentSnapshot` succeeds, the history
write `db.SaveEntitiesGroup` is attempted, once and first, with the snapshot's
EntitiesGroup; the last-known write `db.SaveLastEntitiesGroup` is attempted,
once and after it, with the same group, exactly when the history write
succeeded; a failed write is followed by one log line carrying its error and
ends the tick; nothing else is done after `getCurrentSnapshot`, and the service
state is the one `getCurrentSnapshot` left, whatever the outcome of the
writes. -/
theorem saveEntitiesGroup_writes (s : service) (metrics : Except Error Snapshot)
    (queues : Except Error (List Queue)) (save saveLast : Option Error) (r : Snapshot)
    (hok : (s.getCurrentSnapshot metrics queues).ret = .ok r) :
    (s.saveEntitiesGroup metrics queues save saveLast).state
        = (s.getCurrentSnapshot metrics queues).state
      ∧ Event.dbSaveEntitiesGroup r.Entities ∈
          (s.saveEntitiesGroup metrics queues save saveLast).events
      ∧ (Event.dbSaveLastEntitiesGroup r.Entities ∈
          (s.saveEntitiesGroup metrics queues save saveLast).events ↔ save = none)
      ∧ (∀ e ∈ (s.saveEntitiesGroup metrics queues save saveLast).events,
          e ∈ (s.getCurrentSnapshot metrics queues).events
            ∨ e = .dbSaveEntitiesGroup r.Entities ∨ e = .dbSaveLastEntitiesGroup r.Entities
            ∨ ∃ msg, e = .loggerErrorf msg)
      ∧ (∀ err, save = some err →
          (s.saveEntitiesGroup metrics queues save saveLast).events
            = (s.getCurrentSnapshot metrics queues).events
              ++ [.dbSaveEntitiesGroup r.Entities,
                  .loggerErrorf ("error saving entities group: " ++ err)])
      ∧ (∀ err, save = none → saveLast = some err →
          (s.saveEntitiesGroup metrics queues save saveLast).events
            = (s.getCurrentSnapshot metrics queues).events
              ++ [.dbSaveEntitiesGroup r.Entities, .dbSaveLastEntitiesGroup r.Entities,
                  .loggerErrorf ("error saving last entities group: " ++ err)])
      ∧ (save = none → saveLast = none →
          (s.saveEntitiesGroup metrics queues save saveLast).events
            = (s.getCurrentSnapshot metrics queues).events
              ++ [.dbSaveEntitiesGroup r.Entities, .dbSaveLastEntitiesGroup r.Entities]) := by
  obtain ⟨ss, q, hm, hq⟩ := getCurrentSnapshot_ok_inv s metrics queues r hok
  subst hm hq
  obtain ⟨r2, hr2, _, _, _, hev⟩ := getCurrentSnapshot_ok s ss q
  have hrr : r2 = r := by
    rw [hr2] at hok
    exact Except.ok.inj hok
  subst hrr
  cases save with
  | some e1 =>
    simp only [service.saveEntitiesGroup, hr2, hev]
    simp
  | none =>
    cases saveLast with
    | some e2 =>
      simp only [service.saveEntitiesGroup, hr2, hev]
      simp
    | none =>
      simp only [service.saveEntitiesGroup, hr2, hev]
      simp

/-- Witness of C5 (amended): the scenario, on a tick whose history write
succeeds and whose last-known write fails: history write, last-known write,
one log line, in that order. -/
theorem saveEntitiesGroup_writes_witness :
    (coldService.getCurrentSnapshot (.ok scenarioLive) (.ok scenarioQueues)).ret
        = .ok { System := ⟨10, 5, 0⟩, Entities := scenarioResult }
      ∧ Event.dbSaveEntitiesGroup scenarioResult ∈
          (coldService.saveEntitiesGroup (.ok scenarioLive) (.ok scenarioQueues)
            none (some "disk full")).events
      ∧ Event.dbSaveLastEntitiesGroup scenarioResult ∈
          (coldService.saveEntitiesGroup (.ok scenarioLive) (.ok scenarioQueues)
            none (some "disk full")).events
      ∧ (coldService.saveEntitiesGroup (.ok scenarioLive) (.ok scenarioQueues)
            none (some "disk full")).events
          = (coldService.getCurrentSnapshot (.ok scenarioLive) (.ok scenarioQueues)).events
            ++ [.dbSaveEntitiesGroup scenarioResult, .dbSaveLastEntitiesGroup scenarioResult,
                .loggerErrorf ("error saving last entities group: " ++ "disk full")] :=
  have h := saveEntitiesGroup_writes coldService (.ok scenarioLive) (.ok scenarioQueues)
    none (some "disk full") { System := ⟨10, 5, 0⟩, Entities := scenarioResult } (by rfl)
  ⟨by rfl, h.2.1, h.2.2.1.mpr rfl, h.2.2.2.2.2.1 "disk full" rfl rfl⟩

/-! ## The service: `getSnapshot` -/

/-- C6: when a snapshot is cached, `getSnapshot` answers with the view built
from that snapshot's System and Entities, calls no collaborator (neither the
metrics source nor the broker) and leaves the service state as it was. -/
theorem getSnapshot_cached (s : service) (last : Snapshot)
    (metrics : Except Error Snapshot) (queues : Except Error (List Queue))
    (hcached : s.lastSnapshot = some last) :
    (s.getSnapshot metrics queues).ret = .body (NewGroupDTO last.System last.Entities)
      ∧ (s.getSnapshot metrics queues).events = []
      ∧ (s.getSnapshot metrics queues).state = s := by
  simp [service.getSnapshot, service.sendLastSnapshot, hcached]

/-- Witness of C6: the warm service. -/
theorem getSnapshot_cached_witness :
    warmService.lastSnapshot = some { System := ⟨4, 2, 0⟩, Entities := scenarioBaseline }
      ∧ (warmService.getSnapshot (.ok scenarioLive) (.ok scenarioQueues)).ret
          = .body (NewGroupDTO ⟨4, 2, 0⟩ scenarioBaseline)
      ∧ (warmService.getSnapshot (.ok scenarioLive) (.ok scenarioQueues)).events = []
      ∧ (warmService.getSnapshot (.ok scenarioLive) (.ok scenarioQueues)).state = warmService :=
  ⟨rfl, getSnapshot_cached warmService { System := ⟨4, 2, 0⟩, Entities := scenarioBaseline }
    (.ok scenarioLive) (.ok scenarioQueues) rfl⟩

/-- C7: when nothing is cached, `getSnapshot` performs one `getCurrentSnapshot`
(its collaborator calls and its state change are those of that one call, the
metrics source being queried once); if the call fails the response is the
error response carrying that error; if it succeeds the response body is built
from the System and Entities of the snapshot it produced, which is the cached
one afterwards. -/
theorem getSnapshot_empty_cache (s : service) (metrics : Except Error Snapshot)
    (queues : Except Error (List Queue)) (hempty : s.lastSnapshot = none) :
    (s.getSnapshot metrics queues).events = (s.getCurrentSnapshot metrics queues).events
      ∧ (s.getSnapshot metrics queues).events.count .metricsSnapshot = 1
      ∧ (s.getSnapshot metrics queues).state = (s.getCurrentSnapshot metrics queues).state
      ∧ (∀ err, (s.getCurrentSnapshot metrics queues).ret = .error err →
          (s.getSnapshot metrics queues).ret = .error err)
      ∧ (∀ r, (s.getCurrentSnapshot metrics queues).ret = .ok r →
          (s.getSnapshot metrics queues).ret = .body (NewGroupDTO r.System r.Entities)
            ∧ (s.getSnapshot metrics queues).state.lastSnapshot = some r) := by
  cases metrics with
  | error e =>
    simp [service.getSnapshot, hempty, service.getCurrentSnapshot]
  | ok ss =>
    cases queues with
    | error e =>
      simp [service.getSnapshot, hempty, service.getCurrentSnapshot]
    | ok q =>
      simp [service.getSnapshot, hempty, service.getCurrentSnapshot, service.sendLastSnapshot]

/-- Witness of C7: the cold service, once on the scenario and once with the
broker down. -/
theorem getSnapshot_empty_cache_witness :
    coldService.lastSnapshot = none
      ∧ (coldService.getSnapshot (.ok scenarioLive) (.ok scenarioQueues)).ret
          = .body (NewGroupDTO ⟨10, 5, 0⟩ scenarioResult)
      ∧ (coldService.getSnapshot (.ok scenarioLive) (.error "broker down")).ret
          = .error "broker down" :=
  ⟨rfl,
    ((getSnapshot_empty_cache coldService (.ok scenarioLive) (.ok scenarioQueues) rfl).2.2.2.2
      { System := ⟨10, 5, 0⟩, Entities := scenarioResult } (by rfl)).1,
    (getSnapshot_empty_cache coldService (.ok scenarioLive) (.error "broker down") rfl).2.2.2.1
      "broker down" rfl⟩

/-! ## Sequences of `getCurrentSnapshot` calls -/

theorem runCalls_lastSnapshot (s : service) (calls : List Answers) :
    (runCalls s calls).1.lastSnapshot = lastReturned s.lastSnapshot (runCalls s calls).2 := by
  induction calls generalizing s with
  | nil => rfl
  | cons a rest ih =>
    simp only [runCalls]
    rw [ih, getCurrentSnapshot_lastSnapshot]
    cases (s.getCurrentSnapshot a.metrics a.queues).ret with
    | error e => rfl
    | ok r => rfl

theorem runCalls_baseline (s : service) (calls : List Answers) :
    (runCalls s calls).1.lastLoadedEntitiesGroup = s.lastLoadedEntitiesGroup := by
  induction calls generalizing s with
  | nil => rfl
  | cons a rest ih =>
    simp only [runCalls]
    rw [ih, getCurrentSnapshot_baseline]

/-- C8: after any sequence of `getCurrentSnapshot` calls the cached
`lastSnapshot` is the snapshot returned by the most recent successful call
(failed calls do not advance it); a further call that succeeds caches exactly
the snapshot it returns, a further call that fails leaves the cache alone; and
a further successful call made while a snapshot is cached sets the utilization
by `SetCPUUtilization` on the Uptime and TotalCPUSeconds of the snapshot
returned by the most recent successful call. -/
theorem getCurrentSnapshot_previous_reference (s : service) (calls : List Answers)
    (a : Answers) :
    (runCalls s calls).1.lastSnapshot = lastReturned s.lastSnapshot (runCalls s calls).2
      ∧ (∀ r, ((runCalls s calls).1.getCurrentSnapshot a.metrics a.queues).ret = .ok r →
          ((runCalls s calls).1.getCurrentSnapshot a.metrics a.queues).state.lastSnapshot = some r)
      ∧ (∀ err, ((runCalls s calls).1.getCurrentSnapshot a.metrics a.queues).ret = .error err →
          ((runCalls s calls).1.getCurrentSnapshot a.metrics a.queues).state.lastSnapshot
            = (runCalls s calls).1.lastSnapshot)
      ∧ (∀ prev ss r, lastReturned s.lastSnapshot (runCalls s calls).2 = some prev →
          a.metrics = .ok ss →
          ((runCalls s calls).1.getCurrentSnapshot a.metrics a.queues).ret = .ok r →
          r.System = ss.System.SetCPUUtilization prev.System.Uptime prev.System.TotalCPUSeconds) := by
  refine ⟨runCalls_lastSnapshot s calls, ?_, ?_, ?_⟩
  · intro r hr
    rw [getCurrentSnapshot_lastSnapshot, hr]
  · intro err herr
    rw [getCurrentSnapshot_lastSnapshot, herr]
  · intro prev ss r hprev hm hr
    obtain ⟨ss2, q, hm2, hq⟩ := getCurrentSnapshot_ok_inv _ _ _ r hr
    have hss : ss2 = ss := by
      rw [hm] at hm2
      exact (Except.ok.inj hm2).symm
    subst hss
    rw [hm, hq] at hr
    obtain ⟨r2, hr2, _, hsys, _, _⟩ := getCurrentSnapshot_ok (runCalls s calls).1 ss2 q
    have hrr : r2 = r := by
      rw [hr2] at hr
      exact Except.ok.inj hr
    subst hrr
    rw [hsys, runCalls_lastSnapshot, hprev]

/-- Witness of C8: after a successful call (uptime 10, CPU seconds 5), a call
failing at the broker and a call failing at the metrics source, the cache
still holds the first call's snapshot, and a call on live metrics with uptime
20 and CPU seconds 8 reports the utilization (8 - 5) / (20 - 10). -/
theorem getCurrentSnapshot_previous_reference_witness :
    (runCalls coldService scenarioCalls).1.lastSnapshot
        = some { System := ⟨10, 5, 0⟩, Entities := scenarioResult }
      ∧ ∃ r, ((runCalls coldService scenarioCalls).1.getCurrentSnapshot
            (.ok scenarioLiveLater) (.ok scenarioQueues)).ret = .ok r
          ∧ r.System.CPUUtilization = 3 / 10 := by
  have h := getCurrentSnapshot_previous_reference coldService scenarioCalls
    ⟨.ok scenarioLiveLater, .ok scenarioQueues⟩
  have hlast : lastReturned coldService.lastSnapshot (runCalls coldService scenarioCalls).2
      = some { System := ⟨10, 5, 0⟩, Entities := scenarioResult } := by rfl
  refine ⟨h.1.trans hlast, ?_⟩
  obtain ⟨r, hr, _⟩ := getCurrentSnapshot_ok (runCalls coldService scenarioCalls).1
    scenarioLiveLater scenarioQueues
  refine ⟨r, hr, ?_⟩
  rw [h.2.2.2 _ scenarioLiveLater r hlast rfl hr]
  norm_num [System.SetCPUUtilization, scenarioLiveLater]

/-- C9: two `getCurrentSnapshot` calls in immediate succession, both
succeeding, with the metrics source returning the same entities and the broker
the same queue list, return snapshots with equal EntitiesGroups; the first
call leaves the baseline that the second merges onto as it was. -/
theorem getCurrentSnapshot_idempotent_entities (s : service) (ss1 ss2 : Snapshot)
    (q : List Queue) (hsame : ss2.Entities = ss1.Entities) :
    ∃ r1 r2, (s.getCurrentSnapshot (.ok ss1) (.ok q)).ret = .ok r1
      ∧ ((s.getCurrentSnapshot (.ok ss1) (.ok q)).state.getCurrentSnapshot
          (.ok ss2) (.ok q)).ret = .ok r2
      ∧ r2.Entities = r1.Entities
      ∧ (s.getCurrentSnapshot (.ok ss1) (.ok q)).state.lastLoadedEntitiesGroup
          = s.lastLoadedEntitiesGroup := by
  obtain ⟨r1, hr1, hent1, _, _, _⟩ := getCurrentSnapshot_ok s ss1 q
  obtain ⟨r2, hr2, hent2, _, _, _⟩ :=
    getCurrentSnapshot_ok (s.getCurrentSnapshot (.ok ss1) (.ok q)).state ss2 q
  refine ⟨r1, r2, hr1, hr2, ?_, getCurrentSnapshot_baseline s _ _⟩
  rw [hent2, hent1, getCurrentSnapshot_baseline, hsame]

/-- Witness of C9: the scenario computed twice, the second time with later
system counters and the same entities. -/
theorem getCurrentSnapshot_idempotent_entities_witness :
    scenarioLiveLater.Entities = scenarioLive.Entities
      ∧ ∃ r1 r2, (coldService.getCurrentSnapshot (.ok scenarioLive) (.ok scenarioQueues)).ret
            = .ok r1
          ∧ ((coldService.getCurrentSnapshot (.ok scenarioLive) (.ok scenarioQueues)).state.getCurrentSnapshot
              (.ok scenarioLiveLater) (.ok scenarioQueues)).ret = .ok r2
          ∧ r2.Entities = r1.Entities
          ∧ (coldService.getCurrentSnapshot (.ok scenarioLive)
              (.ok scenarioQueues)).state.lastLoadedEntitiesGroup
            = coldService.lastLoadedEntitiesGroup :=
  ⟨rfl, getCurrentSnapshot_idempotent_entities coldService scenarioLive scenarioLiveLater
    scenarioQueues rfl⟩

/-! ## The service: `init` -/

/-- C10: `init` returns an error exactly when opening the storage fails; when
the storage opens and loading the last entities fails, `init` succeeds with the
empty EntitiesGroup as baseline; when loading succeeds the baseline is the
loaded EntitiesGroup. -/
theorem init_fallback (s : service) (dbInit : Option Error)
    (getLast : Except Error EntitiesGroup) :
    ((s.init dbInit getLast).ret ≠ none ↔ dbInit ≠ none)
      ∧ (∀ err, (s.init none (.error err)).ret = none
          ∧ (s.init none (.error err)).state.lastLoadedEntitiesGroup = NewEntitiesGroup)
      ∧ (∀ eg, (s.init none (.ok eg)).ret = none
          ∧ (s.init none (.ok eg)).state.lastLoadedEntitiesGroup = eg) := by
  refine ⟨?_, fun _ => ⟨rfl, rfl⟩, fun _ => ⟨rfl, rfl⟩⟩
  cases dbInit with
  | some e => simp [service.init]
  | none =>
    cases getLast with
    | error e => simp [service.init]
    | ok eg => simp [service.init]

/-- Witness of C10: a start whose storage opens and whose baseline load fails,
and a start whose storage does not open. -/
theorem init_fallback_witness :
    (coldService.init none (.error "key not found")).ret = none
      ∧ (coldService.init none (.error "key not found")).state.lastLoadedEntitiesGroup
          = NewEntitiesGroup
      ∧ (coldService.init (some "locked") (.ok scenarioResult)).ret ≠ none :=
  ⟨((init_fallback coldService none (.ok scenarioResult)).2.1 "key not found").1,
    ((init_fallback coldService none (.ok scenarioResult)).2.1 "key not found").2,
    (init_fallback coldService (some "locked") (.ok scenarioResult)).1.mpr (by decide)⟩

end KubeMQ
